import Mathlib

/-!
Verification of the dispenser-sdk protocol layer.

JavaScript strings are modelled as lists of UTF-16 code units (natural
numbers); all protocol traffic is ASCII, where one character is one code
unit.  Pure functions of the two codec variants found in
src/dispenser/Neogi.ts and the binary TCS3000 variant are translated
directly; fallible code (throw) is modelled with Except.
-/

set_option maxRecDepth 8192

/-- A JavaScript string: its sequence of UTF-16 code units. -/
abbrev JSStr := List Nat

/-- Embed an ASCII Lean string literal as a JS string (code units). -/
def jstr (s : String) : JSStr := s.data.map Char.toNat

/-- JS String.prototype.padStart(target, pad) restricted to a single pad
character, as used by the code (padStart(2, '0'), padStart(7, '0')). -/
def padStart (target : Nat) (pad : Nat) (s : JSStr) : JSStr :=
  List.replicate (target - s.length) pad ++ s

/-- JS String.prototype.padEnd(target, pad) with a single pad character. -/
def padEnd (target : Nat) (pad : Nat) (s : JSStr) : JSStr :=
  s ++ List.replicate (target - s.length) pad

/-- Fuel-driven core of decimal printing (structural recursion so that
the kernel can evaluate it). -/
def natToDecStrGo : Nat → Nat → JSStr
  | 0, _ => []
  | f + 1, n => if n < 10 then [48 + n] else natToDecStrGo f (n / 10) ++ [48 + n % 10]

/-- JS Number.prototype.toString(10) on a natural number: decimal digits
as code units. -/
def natToDecStr (n : Nat) : JSStr := natToDecStrGo (n + 1) n

/-- Sum of the UTF-16 code units of a string (the charCodeAt loop). -/
def charCodeSum (s : JSStr) : Nat := s.foldl (fun a c => a + c) 0

/-- Neogi.calculateChecksum: sum of character codes, mod 100, decimal,
left-padded with '0' to width 2 (identical in both variants of the
class). -/
def Neogi.calculateChecksum (data : JSStr) : JSStr :=
  padStart 2 48 (natToDecStr (charCodeSum data % 100))

example : Neogi.calculateChecksum (jstr "VT0000004142.02") = jstr "05" := by decide
example : Neogi.calculateChecksum [] = jstr "00" := by decide

/-- Modelled from the spec: BaseDispenser.hex2a (its code is not under
src/) decodes a hex-encoded byte string into the character string it
spells; the spec says decode first normalizes input to ASCII, detecting
hex input by the absence of a leading '#'.  All theorems below restrict
to raw-ASCII input (leading '#'), so this branch is never exercised. -/
def hexDigitVal (c : Nat) : Option Nat :=
  if 48 ≤ c ∧ c ≤ 57 then some (c - 48)
  else if 65 ≤ c ∧ c ≤ 70 then some (c - 55)
  else if 97 ≤ c ∧ c ≤ 102 then some (c - 87)
  else none

/-- Modelled from the spec: the pairwise hex-to-character decoding used
by [hexDigitVal]; a malformed pair decodes like JS parseInt (prefix
parse, NaN becoming code 0). -/
def hex2a : JSStr → JSStr
  | [] => []
  | [c1] =>
      (match hexDigitVal c1 with
       | some h => h
       | none => 0) :: []
  | c1 :: c2 :: rest =>
      (match hexDigitVal c1, hexDigitVal c2 with
       | some h, some l => h * 16 + l
       | some h, none => h
       | none, _ => 0) :: hex2a rest

/-- The decoded reply record returned by Neogi.parseResponse. -/
structure DecodedReply where
  command : JSStr
  data : JSStr
  checksum : Option JSStr
  isSimpleAck : Bool
deriving Repr, DecidableEq

/-- Character class [A-Z0-9] of the simple-acknowledgement pattern. -/
def isAckTokenChar (c : Nat) : Bool :=
  (65 ≤ c && c ≤ 90) || (48 ≤ c && c ≤ 57)

/-- Attempt of the JS regex #([A-Z0-9]+)% at the start of the string:
literal '#', then a greedy non-empty [A-Z0-9] run, then '%'.  Because
'%' is outside the class, greedy backtracking succeeds exactly when the
maximal run is non-empty and followed by '%'. -/
def ackMatchAt : JSStr → Option JSStr
  | 35 :: rest =>
      let run := rest.takeWhile isAckTokenChar
      match run, rest.dropWhile isAckTokenChar with
      | [], _ => none
      | _ :: _, 37 :: _ => some run
      | _ :: _, _ => none
  | _ => none

/-- Unanchored search of #([A-Z0-9]+)%: JS String.match scans start
positions left to right and returns the first capture. -/
def ackSearch : JSStr → Option JSStr
  | [] => none
  | c :: rest =>
      match ackMatchAt (c :: rest) with
      | some t => some t
      | none => ackSearch rest

/-- JS '.' (no dotAll flag): any code unit except a line terminator. -/
def isDotChar (c : Nat) : Bool :=
  !(c == 10 || c == 13 || c == 8232 || c == 8233)

/-- Tail of the data-reply pattern after the lazy group: literal '#',
two decimal digits (captured), then '%'. -/
def dataTail : JSStr → Option JSStr
  | 35 :: d1 :: d2 :: 37 :: _ =>
      if (48 ≤ d1 && d1 ≤ 57) && (48 ≤ d2 && d2 ≤ 57) then some [d1, d2] else none
  | _ => none

/-- Lazy group (.+?) of #(.+?)#(\d{2})% positioned just after the
opening '#': content lengths are tried in increasing order, each
content character matching '.'; returns (content, checksum digits). -/
def dataContent : JSStr → Option (JSStr × JSStr)
  | [] => none
  | c :: rest =>
      if isDotChar c then
        match dataTail rest with
        | some ck => some ([c], ck)
        | none =>
            match dataContent rest with
            | some (cont, ck) => some (c :: cont, ck)
            | none => none
      else none

/-- Unanchored search of #(.+?)#(\d{2})%: scan start positions left to
right; at each '#', try the lazy content match. -/
def dataSearch : JSStr → Option (JSStr × JSStr)
  | [] => none
  | 35 :: rest =>
      match dataContent rest with
      | some r => some r
      | none => dataSearch rest
  | _ :: rest => dataSearch rest

/-- Neogi.parseResponse, first variant (src/dispenser/Neogi.ts lines
34-85): simple acks without checksum, data replies whose transmitted
2-digit checksum is validated against the checksum recomputed over
content plus the closing '#'.  A thrown Error is an Except.error whose
payload is the message string. -/
def Neogi.parseResponse (res : JSStr) : Except JSStr DecodedReply :=
  let ascii := if res.head? = some 35 then res else hex2a res
  let ackResult : Option DecodedReply :=
    if !(ascii.drop 1).contains 35 then
      match ackSearch ascii with
      | some tok =>
          some { command := if 2 ≤ tok.length then tok.take 2 else tok
                 data := if 2 < tok.length then tok.drop 2 else []
                 checksum := none
                 isSimpleAck := true }
      | none => none
    else none
  match ackResult with
  | some r => .ok r
  | none =>
      match dataSearch ascii with
      | none => .error (jstr "Invalid response format: " ++ ascii)
      | some (content, checksum) =>
          let contentWithHash := content ++ [35]
          let calculatedChecksum := Neogi.calculateChecksum contentWithHash
          if calculatedChecksum ≠ checksum then
            .error (jstr "Checksum validation failed. Expected: " ++ calculatedChecksum ++
                    jstr ", Got: " ++ checksum ++ jstr ", Content: " ++ content)
          else
            .ok { command := content.take 2
                  data := content.drop 2
                  checksum := some checksum
                  isSimpleAck := false }

/-- Neogi.parseResponse, second variant (src/dispenser/Neogi.ts lines
466-508): identical to the first variant except that the checksum is
recomputed over the content alone, without the closing '#'. -/
def Neogi.parseResponseV2 (res : JSStr) : Except JSStr DecodedReply :=
  let ascii := if res.head? = some 35 then res else hex2a res
  let ackResult : Option DecodedReply :=
    if !(ascii.drop 1).contains 35 then
      match ackSearch ascii with
      | some tok =>
          some { command := if 2 ≤ tok.length then tok.take 2 else tok
                 data := if 2 < tok.length then tok.drop 2 else []
                 checksum := none
                 isSimpleAck := true }
      | none => none
    else none
  match ackResult with
  | some r => .ok r
  | none =>
      match dataSearch ascii with
      | none => .error (jstr "Invalid response format: " ++ ascii)
      | some (content, checksum) =>
          let calculatedChecksum := Neogi.calculateChecksum content
          if calculatedChecksum ≠ checksum then
            .error (jstr "Checksum validation failed. Expected: " ++ calculatedChecksum ++
                    jstr ", Got: " ++ checksum ++ jstr ", Content: " ++ content)
          else
            .ok { command := content.take 2
                  data := content.drop 2
                  checksum := some checksum
                  isSimpleAck := false }

example : Neogi.parseResponse (jstr "#OK%") = .ok ⟨jstr "OK", [], none, true⟩ := rfl
example : Neogi.parseResponse (jstr "#STIDLE%") = .ok ⟨jstr "ST", jstr "IDLE", none, true⟩ := rfl
example : Neogi.parseResponse (jstr "#VT0000004142.02#40%") =
    .ok ⟨jstr "VT", jstr "0000004142.02", some (jstr "40"), false⟩ := rfl
example : Neogi.parseResponseV2 (jstr "#VT0000004142.02#05%") =
    .ok ⟨jstr "VT", jstr "0000004142.02", some (jstr "05"), false⟩ := rfl
example : ∃ m, Neogi.parseResponse (jstr "#VT0000004142.02#05%") = .error m := ⟨_, rfl⟩
example : ∃ m, Neogi.parseResponse (jstr "#ab%") = .error m := ⟨_, rfl⟩

/-- Neogi.buildCommand: simple command with carriage-return terminator. -/
def Neogi.buildCommand (cmd : JSStr) : JSStr := cmd ++ [13]

/-- Neogi.buildCommandWithChecksum: wraps a payload as
'#' data '#' checksum '%', with the checksum computed over the payload
alone (identical in both variants of the class). -/
def Neogi.buildCommandWithChecksum (data : JSStr) : JSStr :=
  [35] ++ data ++ [35] ++ Neogi.calculateChecksum data ++ [37]

/-- JS Number.prototype.toFixed(2) on a quantity modelled as an exact
count of hundredths (value = centi / 100): integral part, '.', then
the two-digit fractional part.  Exact decimal arithmetic replaces the
source's binary floating point; for quantities exact in hundredths the
two agree. -/
def toFixed2 (centi : Nat) : JSStr :=
  natToDecStr (centi / 100) ++ [46] ++ padStart 2 48 (natToDecStr (centi % 100))

/-- Neogi.buildPresetCommand, first variant (src/dispenser/Neogi.ts
lines 111-126): data is SL + value.toFixed(2).padStart(7, '0') + '$' +
mode + 10-character vehicle field, wrapped by buildCommandWithChecksum.
The numeric value is modelled in hundredths; mode defaults to '*' at
call sites. -/
def Neogi.buildPresetCommand (centi : Nat) (vehicleNo : Option JSStr) (mode : JSStr) : JSStr :=
  let volumeStr := padStart 7 48 (toFixed2 centi)
  let vehicle :=
    match vehicleNo with
    | some v => (padEnd 10 32 v).take 10
    | none => List.replicate 10 32
  let data := jstr "SL" ++ volumeStr ++ [36] ++ mode ++ vehicle
  Neogi.buildCommandWithChecksum data

/-- Neogi.buildPresetCommand, second variant (src/dispenser/Neogi.ts
lines 533-544): data is SL + (value * 100 floored, 8 digits zero-padded)
+ 12-character vehicle field, wrapped by buildCommandWithChecksum.
Math.floor(value * 100) is the hundredth count itself under the exact
decimal model. -/
def Neogi.buildPresetCommandV2 (centi : Nat) (vehicleNo : Option JSStr) : JSStr :=
  let paddedValue := padStart 8 48 (natToDecStr centi)
  let vehicle :=
    match vehicleNo with
    | some v => (padEnd 12 32 v).take 12
    | none => List.replicate 12 32
  let data := jstr "SL" ++ paddedValue ++ vehicle
  Neogi.buildCommandWithChecksum data

example : Neogi.buildPresetCommand 1050 none (jstr "*") =
    jstr "#SL0010.50$*          #97%" := by decide
example : ∃ m, Neogi.parseResponse (Neogi.buildPresetCommand 1050 none (jstr "*")) =
    .error m := ⟨_, rfl⟩
example : ∃ ck, Neogi.parseResponseV2 (Neogi.buildPresetCommandV2 1050 none) =
    .ok ⟨jstr "SL", jstr "00001050            ", some ck, false⟩ := ⟨_, rfl⟩

/-- JS String.prototype.trim removes leading and trailing WhiteSpace and
LineTerminator code units; the common ones are modelled. -/
def isJsSpace (c : Nat) : Bool :=
  c == 9 || c == 10 || c == 11 || c == 12 || c == 13 || c == 32 ||
  c == 160 || c == 8232 || c == 8233 || c == 65279

/-- JS String.prototype.trim. -/
def jsTrim (s : JSStr) : JSStr :=
  ((s.dropWhile isJsSpace).reverse.dropWhile isJsSpace).reverse

/-- The record returned by Neogi.processStatus. -/
structure NeogiStatus where
  state : JSStr
deriving Repr, DecidableEq

/-- Neogi.processStatus: parse the reply, return the trimmed data field
as the state token; a parse failure propagates as a thrown error. -/
def Neogi.processStatus (res : JSStr) : Except JSStr NeogiStatus :=
  match Neogi.parseResponse res with
  | .error m => .error m
  | .ok parsed => .ok ⟨jsTrim parsed.data⟩

/-- Neogi.isOnline: true when processStatus does not throw (the catch
branch returns false). -/
def Neogi.isOnline (res : JSStr) : Bool :=
  match Neogi.processStatus res with
  | .ok _ => true
  | .error _ => false

/-- Modelled from the spec: BaseDispenser.toFixedNumber (its code is
not under src/) rounds half-away-from-zero to 2 decimal places; exact
rational arithmetic replaces the source's binary floating point. -/
def toFixedNumber2 (x : ℚ) : ℚ :=
  if 0 ≤ x then ((⌊x * 100 + 1 / 2⌋ : ℤ) : ℚ) / 100
  else -(((⌊-x * 100 + 1 / 2⌋ : ℤ) : ℚ) / 100)

/-- The order-progress record produced by both isOrderComplete
variants. -/
structure OrderProgress where
  status : Bool
  percentage : ℚ
  dispensedQty : ℚ
deriving Repr, DecidableEq

/-- Neogi.isOrderComplete (src/dispenser/Neogi.ts lines 418-433) after
the running volume has been decoded from the RV reply: completion is
dispensed >= quantity. -/
def Neogi.isOrderCompleteCore (dispensed quantity : ℚ) : OrderProgress :=
  { status := decide (dispensed ≥ quantity)
    percentage := toFixedNumber2 (dispensed / quantity * 100)
    dispensedQty := toFixedNumber2 dispensed }

/-- TCS3000.isOrderComplete (src/unnamed/part_000 lines 304-333) after
the sale reading has been decoded from the reply: completion is
readsale > quantity - 1, with the two literal result branches of the
source. -/
def TCS3000.isOrderCompleteCore (readsale quantity : ℚ) : OrderProgress :=
  if readsale > quantity - 1 then
    { status := true
      percentage := toFixedNumber2 (readsale / quantity * 100)
      dispensedQty := toFixedNumber2 readsale }
  else
    { status := false
      percentage := toFixedNumber2 (readsale / quantity * 100)
      dispensedQty := toFixedNumber2 readsale }

/-- JS String.prototype.slice(start, -negEnd) for 0 <= start: the code
units from index start up to length - negEnd. -/
def jsSliceNeg (s : JSStr) (start : Nat) (negEnd : Nat) : JSStr :=
  (s.take (s.length - negEnd)).drop start

/-- The status lookup table of TCS3000.processStatus. -/
def TCS3000.statusMap : List (JSStr × String) :=
  [(jstr "00", "ERROR"), (jstr "01", "IDLE"), (jstr "02", "ACTIVE"),
   (jstr "03", "AIR (Air detected)"), (jstr "04", "PAUSED"), (jstr "05", "STOPPED"),
   (jstr "06", "TCKT_PENDING"), (jstr "07", "PRINTING")]

/-- The record returned by TCS3000.processStatus; a missing map entry is
the JS undefined, modelled as none. -/
structure TCSStatus where
  status : Option String
deriving Repr, DecidableEq

/-- TCS3000.processStatus: slice the status bits out of the reply at the
fixed offset and look them up; total, never throws. -/
def TCS3000.processStatus (res : JSStr) : TCSStatus :=
  ⟨TCS3000.statusMap.lookup (jsSliceNeg res 16 2)⟩

/-- TCS3000.isOnline: the JS truthiness test on status.status — true
exactly when the lookup produced a (non-empty) state string. -/
def TCS3000.isOnline (res : JSStr) : Bool :=
  match (TCS3000.processStatus res).status with
  | some _ => true
  | none => false

example : TCS3000.processStatus (jstr "short") = ⟨none⟩ := by decide
example : TCS3000.processStatus (jstr "00000000000000000100") = ⟨some "IDLE"⟩ := by decide
example : TCS3000.processStatus (jstr "00000000000000000800") = ⟨none⟩ := by decide
example : TCS3000.isOnline (jstr "00000000000000000800") = false := by decide

/-- The fixed 256-entry CRC-8 lookup table of TCS3000. -/
def TCS3000.crc_array : List Nat :=
  [0, 94, 188, 226, 97, 63, 221, 131, 194, 156, 126, 32, 163, 253, 31, 65, 157, 195, 33, 127,
   252, 162, 64, 30, 95, 1, 227, 189, 62, 96, 130, 220, 35, 125, 159, 193, 66, 28, 254, 160,
   225, 191, 93, 3, 128, 222, 60, 98, 190, 224, 2, 92, 223, 129, 99, 61, 124, 34, 192, 158,
   29, 67, 161, 255, 70, 24, 250, 164, 39, 121, 155, 197, 132, 218, 56, 102, 229, 187, 89, 7,
   219, 133, 103, 57, 186, 228, 6, 88, 25, 71, 165, 251, 120, 38, 196, 154, 101, 59, 217, 135,
   4, 90, 184, 230, 167, 249, 27, 69, 198, 152, 122, 36, 248, 166, 68, 26, 153, 199, 37, 123,
   58, 100, 134, 216, 91, 5, 231, 185, 140, 210, 48, 110, 237, 179, 81, 15, 78, 16, 242, 172,
   47, 113, 147, 205, 17, 79, 173, 243, 112, 46, 204, 146, 211, 141, 111, 49, 178, 236, 14, 80,
   175, 241, 19, 77, 206, 144, 114, 44, 109, 51, 209, 143, 12, 82, 176, 238, 50, 108, 142, 208,
   83, 13, 239, 177, 240, 174, 76, 18, 145, 207, 45, 115, 202, 148, 118, 40, 171, 245, 23, 73,
   8, 86, 180, 234, 105, 55, 213, 139, 87, 9, 235, 181, 54, 104, 138, 212, 149, 203, 41, 119,
   244, 170, 72, 22, 233, 183, 85, 11, 136, 214, 52, 106, 43, 117, 151, 201, 74, 20, 246, 168,
   116, 42, 200, 150, 21, 75, 169, 247, 182, 232, 10, 84, 215, 137, 107, 53]

/-- One CRC-8 accumulation step: crc = table[crc XOR byte]. -/
def TCS3000.crcStep (crc b : Nat) : Nat := TCS3000.crc_array.getD (crc ^^^ b) 0

/-- CRC-8 accumulation across a byte sequence from a given start
value. -/
def TCS3000.crcFold (init : Nat) (bytes : List Nat) : Nat :=
  bytes.foldl TCS3000.crcStep init

/-- The fixed preset-volume precursor of TCS3000.sendPreset. -/
def TCS3000.volumePrecursor : List Nat :=
  [0x7e, 0x01, 0x00, 0x20, 0x38, 0x0b, 0x03, 0x03, 0xf7]

/-- The loop body of TCS3000.sendPreset: advance the CRC and push the
byte onto the buffer. -/
def TCS3000.presetStep (acc : Nat × List Nat) (b : Nat) : Nat × List Nat :=
  (TCS3000.crcStep acc.1 b, acc.2 ++ [b])

/-- TCS3000.sendPreset (src/unnamed/part_000 lines 97-123): fold the
CRC and buffer across the precursor bytes, then across the quantity
bytes, then append the final CRC byte.  The quantity bytes are those of
BaseDispenser.doubleToHex (code not under src/; modelled from the spec
as the quantity's hexadecimal byte representation, kept abstract by
taking the byte list as the argument). -/
def TCS3000.sendPresetFrame (qtyBytes : List Nat) : List Nat :=
  let acc1 := TCS3000.volumePrecursor.foldl TCS3000.presetStep (0, [])
  let acc2 := qtyBytes.foldl TCS3000.presetStep acc1
  acc2.2 ++ [acc2.1]

/-- The fixed command buffers of the TCS3000 class, source names kept. -/
def TCS3000.totalizerBuffer : List Nat := [0x7e, 0x01, 0x00, 0x40, 0x1e, 0x00, 0x47]

def TCS3000.read_preset : List Nat := [0x7e, 0x01, 0x00, 0x40, 0x1f, 0x00, 0x83]

def TCS3000.read_sale : List Nat := [0x7e, 0x01, 0x00, 0x40, 0x2b, 0x00, 0x95]

def TCS3000.read_status : List Nat := [0x7e, 0x01, 0x00, 0x40, 0x1f, 0x00, 0x83]

def TCS3000.pump_start : List Nat := [0x7e, 0x01, 0x00, 0x40, 0x1f, 0x00, 0x83]

def TCS3000.pump_stop : List Nat := [0x7e, 0x01, 0x00, 0x20, 0x3b, 0x00, 0xdc]

def TCS3000.cancel_preset : List Nat := [0x7e, 0x01, 0x00, 0x20, 0x36, 0x00, 0x55]

def TCS3000.authorize : List Nat := [0x7e, 0x01, 0x00, 0x20, 0x3c, 0x01, 0x03, 0xa8]

def TCS3000.clear_sale : List Nat := [0x7e, 0x01, 0x00, 0x20, 0x3e, 0x00, 0x23]

def TCS3000.suspend_sale : List Nat := [0x7e, 0x01, 0x00, 0x20, 0x39, 0x00, 0x4d]

def TCS3000.resume_sale : List Nat := [0x7e, 0x01, 0x00, 0x20, 0x3a, 0x00, 0x18]

/-- The logical commands of the TCS3000 catalog that write one of the
fixed buffers. -/
inductive TCSCommand where
  | totalizer | readPreset | readSale | readStatus | pumpStart | pumpStop
  | cancelPreset | authorizeSale | suspendSale | resumeSale | clearSale
deriving Repr, DecidableEq

/-- The wire frame each TCS3000 command method writes to the
connection, read off the respective method bodies. -/
def TCS3000.writtenFrame : TCSCommand → List Nat
  | .totalizer => TCS3000.totalizerBuffer
  | .readPreset => TCS3000.read_preset
  | .readSale => TCS3000.read_sale
  | .readStatus => TCS3000.read_status
  | .pumpStart => TCS3000.pump_start
  | .pumpStop => TCS3000.pump_stop
  | .cancelPreset => TCS3000.cancel_preset
  | .authorizeSale => TCS3000.authorize
  | .suspendSale => TCS3000.suspend_sale
  | .resumeSale => TCS3000.resume_sale
  | .clearSale => TCS3000.clear_sale

example : TCS3000.crc_array.length = 256 := by decide

/-- One lowercase hex digit code unit (Buffer.toString('hex')). -/
def hexDigitChar (n : Nat) : Nat := if n < 10 then 48 + n else 87 + n

/-- Buffer.prototype.toString('hex'): two lowercase hex digits per
byte. -/
def bytesToHex : List Nat → JSStr
  | [] => []
  | b :: rest => hexDigitChar (b / 16 % 16) :: hexDigitChar (b % 16) :: bytesToHex rest

/-- The listener registry of the shared byte parser and the armed
timeout timer, the mutable state Neogi.dispenserResponse touches. -/
structure CorrelatorState where
  listeners : Nat
  timerArmed : Bool
deriving Repr, DecidableEq

/-- The first event that reaches a pending dispenserResponse call: a
data chunk from the transport, or the timeout timer firing. -/
inductive FirstEvent where
  | dataArrived (bytes : List Nat)
  | timerFired
deriving Repr, DecidableEq

/-- The settlement of the returned promise. -/
inductive Settled where
  | resolved (hex : JSStr)
  | rejected (msg : JSStr)
deriving Repr, DecidableEq

/-- The default timeout of Neogi.dispenserResponse. -/
def defaultResponseTimeoutMs : Nat := 20000

/-- Neogi.dispenserResponse (src/dispenser/Neogi.ts lines 151-176) as a
step function on the correlator state: the call attaches a single-shot
data handler and arms the timer; on the first data event the once
semantics detach the handler, the handler clears the timer and resolves
with the hex form of the bytes; on timer expiry the callback removes
the handler and rejects with an error naming the timeout duration. -/
def Neogi.dispenserResponseRun (timeoutMs : Nat) (st : CorrelatorState) (ev : FirstEvent) :
    CorrelatorState × Settled :=
  let armed : CorrelatorState := { listeners := st.listeners + 1, timerArmed := true }
  match ev with
  | .dataArrived bytes =>
      ({ listeners := armed.listeners - 1, timerArmed := false },
       .resolved (bytesToHex bytes))
  | .timerFired =>
      ({ listeners := armed.listeners - 1, timerArmed := false },
       .rejected (jstr "Dispenser response timed out after " ++ natToDecStr timeoutMs ++ jstr "ms"))

lemma natToDecStr_fin100 :
    ∀ m : Fin 100, (natToDecStr m.val).length ≤ 2 ∧ ∀ c ∈ natToDecStr m.val, 48 ≤ c ∧ c ≤ 57 := by
  decide

lemma natToDecStr_lt100 (m : Nat) (hm : m < 100) :
    (natToDecStr m).length ≤ 2 ∧ ∀ c ∈ natToDecStr m, 48 ≤ c ∧ c ≤ 57 :=
  natToDecStr_fin100 ⟨m, hm⟩

/-- Claim C4: Neogi.calculateChecksum is the total, deterministic
function returning the 2-character decimal string of the sum of the
input's character codes reduced modulo 100 and left-padded with '0' to
width 2; its output always has exactly 2 characters, all decimal
digits, for any character content. -/
theorem Neogi.calculateChecksum_spec (s : JSStr) :
    Neogi.calculateChecksum s = padStart 2 48 (natToDecStr (charCodeSum s % 100)) ∧
    (Neogi.calculateChecksum s).length = 2 ∧
    ∀ c ∈ Neogi.calculateChecksum s, 48 ≤ c ∧ c ≤ 57 := by
  have hlt : charCodeSum s % 100 < 100 := Nat.mod_lt _ (by norm_num)
  have h := natToDecStr_lt100 (charCodeSum s % 100) hlt
  refine ⟨rfl, ?_, ?_⟩
  · have hl := h.1
    unfold Neogi.calculateChecksum padStart
    simp only [List.length_append, List.length_replicate]
    omega
  · intro c hc
    unfold Neogi.calculateChecksum padStart at hc
    rcases List.mem_append.mp hc with h1 | h2
    · have := List.eq_of_mem_replicate h1
      omega
    · exact h.2 c h2

/-- Claim C5: for a decoded sale reading and a target quantity, the
Neogi isOrderComplete reports completion exactly when reading >= target
while the TCS3000 variant reports completion exactly when
reading > target - 1, and both report percentage rounded from
reading / target * 100 and dispensedQty rounded from the reading, to 2
decimals. -/
theorem isOrderComplete_policies (r q : ℚ) :
    ((Neogi.isOrderCompleteCore r q).status = true ↔ r ≥ q) ∧
    ((TCS3000.isOrderCompleteCore r q).status = true ↔ r > q - 1) ∧
    (Neogi.isOrderCompleteCore r q).percentage = toFixedNumber2 (r / q * 100) ∧
    (TCS3000.isOrderCompleteCore r q).percentage = toFixedNumber2 (r / q * 100) ∧
    (Neogi.isOrderCompleteCore r q).dispensedQty = toFixedNumber2 r ∧
    (TCS3000.isOrderCompleteCore r q).dispensedQty = toFixedNumber2 r := by
  unfold Neogi.isOrderCompleteCore TCS3000.isOrderCompleteCore
  by_cases h : r > q - 1 <;> simp [h, ge_iff_le]

lemma presetStep_foldl (bytes : List Nat) :
    ∀ c l, bytes.foldl TCS3000.presetStep (c, l) =
      (TCS3000.crcFold c bytes, l ++ bytes) := by
  induction bytes with
  | nil => intro c l; simp [TCS3000.crcFold]
  | cons b bs ih =>
      intro c l
      rw [List.foldl_cons, show TCS3000.presetStep (c, l) b =
            (TCS3000.crcStep c b, l ++ [b]) from rfl, ih]
      simp [TCS3000.crcFold]

/-- Claim C9: for every quantity, the frame TCS3000.sendPreset writes
is the fixed preset-volume precursor, then the quantity's bytes, then
exactly one trailing CRC-8 byte obtained by folding
crc = table[crc XOR byte] from 0 across the precursor bytes and then
across the quantity bytes, with the fixed 256-entry table. -/
theorem TCS3000.sendPreset_frame_shape (qtyBytes : List Nat) :
    TCS3000.sendPresetFrame qtyBytes =
      TCS3000.volumePrecursor ++ qtyBytes ++
        [TCS3000.crcFold (TCS3000.crcFold 0 TCS3000.volumePrecursor) qtyBytes] ∧
    TCS3000.crc_array.length = 256 := by
  constructor
  · unfold TCS3000.sendPresetFrame
    simp [presetStep_foldl]
  · decide

/-- Claim C10: in the TCS3000 variant, readPreset, readStatus and
pumpStart all write the identical frame 7e 01 00 40 1f 00 83, so the
command encoding is not injective over the catalog. -/
theorem TCS3000.writtenFrame_not_injective :
    TCS3000.writtenFrame .readPreset = [0x7e, 0x01, 0x00, 0x40, 0x1f, 0x00, 0x83] ∧
    TCS3000.writtenFrame .readStatus = TCS3000.writtenFrame .readPreset ∧
    TCS3000.writtenFrame .pumpStart = TCS3000.writtenFrame .readPreset ∧
    ¬Function.Injective TCS3000.writtenFrame := by
  refine ⟨rfl, rfl, rfl, fun hinj => ?_⟩
  have h : TCSCommand.readPreset = TCSCommand.readStatus :=
    hinj (rfl : TCS3000.writtenFrame .readPreset = TCS3000.writtenFrame .readStatus)
  exact absurd h (by decide)

/-- Claim C2: per dispenserResponse call, whichever of the data event
and the timer fires first, exactly one of resolve and reject occurs,
the parser's listener count returns to its pre-call value (the handler
never dangles), the timer is never left armed, a data-first run
resolves with the received bytes in hex form, a timeout-first run
rejects with an error naming the timeout duration, and the default
window is 20000 ms. -/
theorem Neogi.dispenserResponse_single_settlement (timeoutMs : Nat) (st : CorrelatorState) :
    (∀ ev, (Neogi.dispenserResponseRun timeoutMs st ev).1.listeners = st.listeners ∧
           (Neogi.dispenserResponseRun timeoutMs st ev).1.timerArmed = false) ∧
    (∀ bytes, (Neogi.dispenserResponseRun timeoutMs st (.dataArrived bytes)).2 =
        .resolved (bytesToHex bytes)) ∧
    (Neogi.dispenserResponseRun timeoutMs st .timerFired).2 =
        .rejected (jstr "Dispenser response timed out after " ++
                   natToDecStr timeoutMs ++ jstr "ms") ∧
    (∀ ev, ¬∃ h m, (Neogi.dispenserResponseRun timeoutMs st ev).2 = .resolved h ∧
                   (Neogi.dispenserResponseRun timeoutMs st ev).2 = .rejected m) ∧
    defaultResponseTimeoutMs = 20000 := by
  refine ⟨fun ev => ?_, fun bytes => rfl, rfl, fun ev => ?_, rfl⟩
  · cases ev <;> simp [Neogi.dispenserResponseRun]
  · rintro ⟨h, m, h1, h2⟩
    cases ev <;> simp [Neogi.dispenserResponseRun] at h1 h2

/-- Claim C6: status classification is total — TCS3000.processStatus
never throws and returns the UNKNOWN record (a missing map entry, JS
undefined) whenever the 2-character status code has no entry in the
lookup table, every known token maps to its documented canonical state,
and Neogi.processStatus returns the trimmed token without error on
every reply its parser accepts, whatever the token. -/
theorem processStatus_total :
    (∀ res : JSStr, TCS3000.statusMap.lookup (jsSliceNeg res 16 2) = none →
        TCS3000.processStatus res = ⟨none⟩) ∧
    (TCS3000.statusMap.lookup (jstr "00") = some "ERROR" ∧
     TCS3000.statusMap.lookup (jstr "01") = some "IDLE" ∧
     TCS3000.statusMap.lookup (jstr "02") = some "ACTIVE" ∧
     TCS3000.statusMap.lookup (jstr "03") = some "AIR (Air detected)" ∧
     TCS3000.statusMap.lookup (jstr "04") = some "PAUSED" ∧
     TCS3000.statusMap.lookup (jstr "05") = some "STOPPED" ∧
     TCS3000.statusMap.lookup (jstr "06") = some "TCKT_PENDING" ∧
     TCS3000.statusMap.lookup (jstr "07") = some "PRINTING") ∧
    (∀ res p, Neogi.parseResponse res = .ok p →
        Neogi.processStatus res = .ok ⟨jsTrim p.data⟩) := by
  refine ⟨fun res h => ?_, by decide, fun res p h => ?_⟩
  · unfold TCS3000.processStatus
    rw [h]
  · unfold Neogi.processStatus
    rw [h]

theorem processStatus_total_witness :
    TCS3000.processStatus (jstr "00000000000000004200") = ⟨none⟩ ∧
    TCS3000.statusMap.lookup (jstr "05") = some "STOPPED" ∧
    Neogi.processStatus (jstr "#STWAIT%") = .ok ⟨jstr "WAIT"⟩ := by
  refine ⟨processStatus_total.1 (jstr "00000000000000004200") (by decide), ?_, ?_⟩
  · exact processStatus_total.2.1.2.2.2.2.2.1
  · exact processStatus_total.2.2 (jstr "#STWAIT%") ⟨jstr "ST", jstr "WAIT", none, true⟩ rfl

/-- Claim C7 counterexample: a TCS3000 status reply whose fixed-offset
token is unrecognized — classification succeeds and produces the
UNKNOWN record (processStatus is total and returned a value), yet
isOnline reports false; the claim says a reply that parsed with a
merely unrecognized token still yields true. -/
theorem tcs_isOnline_unknown_offline :
    TCS3000.processStatus (jstr "00000000000000000800") = ⟨none⟩ ∧
    TCS3000.isOnline (jstr "00000000000000000800") = false := by
  decide

/-- Claim C7 as amended: the Neogi isOnline returns true exactly when
the status reply parses (a malformed reply yields false, a well-formed
reply yields true whatever its token), while the TCS3000 isOnline —
whose processStatus never fails to parse — returns true exactly when
the fixed-offset status token has an entry in the lookup table, so an
unrecognized token yields false there. -/
theorem isOnline_parse_iff (res : JSStr) :
    (Neogi.isOnline res = true ↔ ∃ p, Neogi.parseResponse res = .ok p) ∧
    (TCS3000.isOnline res = true ↔
        (TCS3000.statusMap.lookup (jsSliceNeg res 16 2)).isSome = true) := by
  constructor
  · unfold Neogi.isOnline Neogi.processStatus
    cases h : Neogi.parseResponse res <;> simp [h]
  · unfold TCS3000.isOnline TCS3000.processStatus
    cases h : TCS3000.statusMap.lookup (jsSliceNeg res 16 2) <;> simp [h]

/-- Claim C8: on a reply that starts with '#' and has no further '#',
whenever the simple-acknowledgement pattern matches with token tok,
parseResponse returns isSimpleAck = true, command = the first two
characters of the token (the whole token when shorter), data = the
rest of the token, and no checksum field (no checksum validation on
this path). -/
theorem Neogi.parseResponse_simpleAck (s tok : JSStr)
    (hhead : s.head? = some 35)
    (hnosecond : (s.drop 1).contains 35 = false)
    (hack : ackSearch s = some tok) :
    Neogi.parseResponse s = .ok ⟨tok.take 2, tok.drop 2, none, true⟩ := by
  unfold Neogi.parseResponse
  simp only [hhead, if_pos rfl, hnosecond, Bool.not_false, if_true, hack]
  have hcmd : (if 2 ≤ tok.length then tok.take 2 else tok) = tok.take 2 := by
    split
    · rfl
    · rw [List.take_of_length_le (by omega)]
  have hdat : (if 2 < tok.length then tok.drop 2 else []) = tok.drop 2 := by
    split
    · rfl
    · rw [List.drop_eq_nil_of_le (by omega)]
  rw [hcmd, hdat]

theorem Neogi.parseResponse_simpleAck_witness :
    Neogi.parseResponse (jstr "#STDISP%") = .ok ⟨jstr "ST", jstr "DISP", none, true⟩ := by
  have h := Neogi.parseResponse_simpleAck (jstr "#STDISP%") (jstr "STDISP")
    (by decide) (by decide) (by decide)
  exact h

/-- Claim C1: on a raw ASCII reply that the checksummed data-reply
branch accepts with captured content and transmitted 2-digit checksum,
parseResponse returns a reply with isSimpleAck = false exactly when the
transmitted checksum equals the recomputed one — over content plus the
closing '#' in the first variant, over the content alone in the second
variant — and otherwise throws a checksum-validation error, producing
no decoded reply. -/
theorem Neogi.parseResponse_checksum_gate (s content ck : JSStr)
    (hhead : s.head? = some 35)
    (hsecond : (s.drop 1).contains 35 = true)
    (hmatch : dataSearch s = some (content, ck)) :
    (Neogi.calculateChecksum (content ++ [35]) = ck →
        Neogi.parseResponse s = .ok ⟨content.take 2, content.drop 2, some ck, false⟩) ∧
    (Neogi.calculateChecksum (content ++ [35]) ≠ ck →
        ∃ msg, Neogi.parseResponse s = .error msg) ∧
    (∀ r, Neogi.parseResponse s = .ok r →
        r.isSimpleAck = false ∧ Neogi.calculateChecksum (content ++ [35]) = ck) ∧
    (Neogi.calculateChecksum content = ck →
        Neogi.parseResponseV2 s = .ok ⟨content.take 2, content.drop 2, some ck, false⟩) ∧
    (Neogi.calculateChecksum content ≠ ck →
        ∃ msg, Neogi.parseResponseV2 s = .error msg) := by
  have hps : Neogi.parseResponse s =
      if Neogi.calculateChecksum (content ++ [35]) ≠ ck then
        .error (jstr "Checksum validation failed. Expected: " ++
                Neogi.calculateChecksum (content ++ [35]) ++
                jstr ", Got: " ++ ck ++ jstr ", Content: " ++ content)
      else .ok ⟨content.take 2, content.drop 2, some ck, false⟩ := by
    have hsecond2 : 35 ∈ List.tail s := by simpa using hsecond
    unfold Neogi.parseResponse
    simp [hhead, hsecond2, hmatch]
  have hps2 : Neogi.parseResponseV2 s =
      if Neogi.calculateChecksum content ≠ ck then
        .error (jstr "Checksum validation failed. Expected: " ++
                Neogi.calculateChecksum content ++
                jstr ", Got: " ++ ck ++ jstr ", Content: " ++ content)
      else .ok ⟨content.take 2, content.drop 2, some ck, false⟩ := by
    have hsecond2 : 35 ∈ List.tail s := by simpa using hsecond
    unfold Neogi.parseResponseV2
    simp [hhead, hsecond2, hmatch]
  refine ⟨fun h => ?_, fun h => ?_, fun r hr => ?_, fun h => ?_, fun h => ?_⟩
  · rw [hps]; simp [h]
  · rw [hps]; simp [h]
  · rw [hps] at hr
    by_cases h : Neogi.calculateChecksum (content ++ [35]) = ck
    · simp [h] at hr
      exact ⟨by rw [← hr], h⟩
    · simp [h] at hr
  · rw [hps2]; simp [h]
  · rw [hps2]; simp [h]

theorem Neogi.parseResponse_checksum_gate_witness :
    Neogi.parseResponse (jstr "#AB#66%") = .ok ⟨jstr "AB", [], some (jstr "66"), false⟩ ∧
    (∃ msg, Neogi.parseResponseV2 (jstr "#AB#66%") = .error msg) := by
  have h := Neogi.parseResponse_checksum_gate (jstr "#AB#66%") (jstr "AB") (jstr "66")
    (by decide) (by decide) (by decide)
  exact ⟨h.1 (by decide), h.2.2.2.2 (by decide)⟩

/-- Claim C3 evaluated at the failing input: in the first variant,
decoding its own encoded preset frame for value 10.50 (vehicle number
omitted, default mode) throws a checksum-validation error instead of
recovering command SL — buildPresetCommand transmits the checksum of
the payload alone ('97') while parseResponse revalidates over the
payload plus the closing '#' ('32'); the second variant's
encoder/decoder pair, which agree on the scope, round-trips the same
value successfully. -/
theorem Neogi.presetRoundTrip_checksumScope_bug :
    (∃ msg, Neogi.parseResponse (Neogi.buildPresetCommand 1050 none (jstr "*")) =
        .error msg) ∧
    Neogi.buildPresetCommand 1050 none (jstr "*") = jstr "#SL0010.50$*          #97%" ∧
    Neogi.calculateChecksum (jstr "SL0010.50$*          ") = jstr "97" ∧
    Neogi.calculateChecksum (jstr "SL0010.50$*          #") = jstr "32" ∧
    (∃ ck, Neogi.parseResponseV2 (Neogi.buildPresetCommandV2 1050 none) =
        .ok ⟨jstr "SL", jstr "00001050            ", some ck, false⟩) :=
  ⟨⟨_, rfl⟩, by decide, by decide, by decide, ⟨_, rfl⟩⟩
